import Mathlib

/-!
Verification development for a small spreadsheet-manager RPC server
(src/server.py).  The server exposes tools (list sheets, read a range,
create/rename/delete a sheet, append rows, add a column, delete rows or
columns) that forward to an external spreadsheet service.  We embed the
range-resolution and row-normalization logic of the read operation, the
bijective base-26 column-letter encoding, and an effect-level model of every
tool: each tool is a pure function of a configuration and of the external
collaborator (modelled as a record of fallible responses), returning the
output string together with the list of collaborator calls it issued.
-/

namespace GSheet

/-- The single-quote character, used to build A1-style range strings such as
the one produced by the source f-string for a quoted sheet name. -/
def sq : String := String.singleton (Char.ofNat 39)

/-- One step of the row-length normalization loop of read_sheet_data
(src/server.py, the loop over data under the comment that normalizes row
lengths).  The state is the current header together with the rows already
processed.  A row shorter than the header is padded on the right with empty
strings; a row longer than the header extends the header with synthesized
labels Col_(m+1) .. Col_(row length) where m is the header length before the
extension; a row of equal length passes unchanged. -/
def normStep (st : List String × List (List String)) (row : List String) :
    List String × List (List String) :=
  let header := st.1
  let acc := st.2
  let m := header.length
  if row.length < m then
    (header, acc ++ [row ++ List.replicate (m - row.length) ""])
  else if row.length > m then
    (header ++ (List.range (row.length - m)).map
      (fun i => "Col_" ++ toString (m + i + 1)), acc ++ [row])
  else
    (header, acc ++ [row])

/-- The whole normalization pass of read_sheet_data: fold normStep over the
body rows starting from the fetched header. -/
def normalize (header : List String) (data : List (List String)) :
    List String × List (List String) :=
  data.foldl normStep (header, [])

/-- Fuel-indexed unfolding of the loop of index_to_column (src/server.py):
the loop prepends chr(ord(A) + index mod 26) and continues with
index div 26 - 1 while index is non-negative.  The loop variable strictly
decreases, so fuel index + 1 always suffices; itc below packages this and
itc_eq recovers the direct recursion equation. -/
def itcFuel : Nat → Nat → List Char
  | 0, _ => []
  | fuel + 1, index =>
    if index < 26 then [Char.ofNat (65 + index)]
    else itcFuel fuel (index / 26 - 1) ++ [Char.ofNat (65 + index % 26)]

/-- Character codes of the letters produced by the loop of index_to_column
for a non-negative starting index. -/
def itc (index : Nat) : List Char := itcFuel (index + 1) index

/-- index_to_column from src/server.py: converts a 0-based column index to an
A1 column letter string. -/
def index_to_column (index : Nat) : String := String.mk (itc index)

/-- Value of a letter string in bijective base 26 (A = 1, ..., Z = 26); the
inverse used to reason about index_to_column. -/
def colVal (l : List Char) : Nat :=
  l.foldl (fun a c => a * 26 + (c.toNat - 64)) 0

/-- Membership in the standard spreadsheet column-letter sequence: a nonempty
string of uppercase letters A..Z. -/
def isColName (s : String) : Prop :=
  s.data ≠ [] ∧ ∀ c ∈ s.data, 65 ≤ c.toNat ∧ c.toNat ≤ 90

instance (s : String) : Decidable (isColName s) := by
  unfold isColName; infer_instance

/-- Stand-in for the pandas markdown rendering used by the source
(DataFrame(...).to_markdown(index=False)): a pipe-separated table.  No claim
depends on the exact rendered text, only on which header and body rows reach
the renderer. -/
def toMarkdownTable (header : List String) (rows : List (List String)) : String :=
  let line := fun (r : List String) => "| " ++ String.intercalate " | " r ++ " |"
  String.intercalate "\n"
    (line header :: line (header.map (fun _ => "---")) :: rows.map line)

/-- Normalize then render, exactly the tail of read_sheet_data after the
header/body split. -/
def tabulate (header : List String) (data : List (List String)) : String :=
  toMarkdownTable (normalize header data).1 (normalize header data).2

/-- Dimension selector of a deleteDimension batch request. -/
inductive Dim
  | rows
  | columns
deriving DecidableEq

/-- Body of a spreadsheets.batchUpdate request, one constructor per request
shape the source builds. -/
inductive BatchReq
  | addSheet (title : String)
  | updateSheetTitle (sheetId : Int) (title : String)
  | deleteSheet (sheetId : Int)
  | deleteDimension (sheetId : Int) (dim : Dim) (startIndex endIndex : Int)
deriving DecidableEq

/-- One collaborator interaction.  getService records the authentication
bootstrap (get_service in the source, no HTTP request to the spreadsheet
service); every other constructor is one HTTP call. -/
inductive Call
  | getService
  | getMetadata
  | valuesGet (range : String)
  | valuesUpdate (range : String) (values : List (List String))
  | valuesAppend (range : String) (values : List (List String))
  | batchUpdate (req : BatchReq)
deriving DecidableEq

/-- Whether a call is an HTTP call to the external spreadsheet service. -/
def isHttp : Call → Bool
  | Call.getService => false
  | _ => true

/-- Number of HTTP calls in a log. -/
def httpCalls (l : List Call) : Nat := (l.filter isHttp).length

/-- Properties of one sheet as returned by the metadata endpoint: title,
opaque numeric id, position, grid row count, and the rendered gridProperties
text used by list_sheets. -/
structure SheetProps where
  title : String
  sheetId : Int
  index : Nat
  gridRowCount : Nat
  gridPropsStr : String
deriving DecidableEq

/-- The external collaborator: every operation may fail (an exception in the
source).  valuesGet returns none when the response has no values key (the
source reads it with a default). -/
structure Env where
  getService : Except String Unit
  getMetadata : Except String (List SheetProps)
  valuesGet : String → Except String (Option (List (List String)))
  valuesUpdate : String → List (List String) → Except String Unit
  valuesAppend : String → List (List String) → Except String Unit
  batchUpdate : BatchReq → Except String Unit

/-- Process-wide configuration: the SPREADSHEET_ID environment variable
(none when unset). -/
structure Config where
  spreadsheetId : Option String
deriving DecidableEq

/-- Python falsiness of the SPREADSHEET_ID value: unset or empty. -/
def cfgUnset (cfg : Config) : Bool :=
  match cfg.spreadsheetId with
  | none => true
  | some s => s == ""

/-- Python truthiness of an optional string argument (the range_name
parameter): set and nonempty. -/
def strTruthy (o : Option String) : Bool :=
  match o with
  | none => false
  | some s => s != ""

/-- The error message every tool returns when SPREADSHEET_ID is unset. -/
def errNoId : String := "Error: SPREADSHEET_ID environment variable is not set."

/-- Log of a tool body outcome (the calls issued, whether or not the body
ended in an exception). -/
def logOf (r : Except (String × List Call) (String × List Call)) : List Call :=
  match r with
  | Except.ok p => p.2
  | Except.error p => p.2

/-- The try/except boundary shared by every tool: when SPREADSHEET_ID is
falsy return the configuration error without any call; otherwise run the body
and turn an exception e into catchMsg ++ e, keeping the calls issued so
far. -/
def runTool (cfg : Config) (catchMsg : String)
    (body : Except (String × List Call) (String × List Call)) :
    String × List Call :=
  if cfgUnset cfg then (errNoId, [])
  else
    match body with
    | Except.ok p => p
    | Except.error p => (catchMsg ++ p.1, p.2)

/-- Body of list_sheets inside its try block. -/
def list_sheets_body (env : Env) :
    Except (String × List Call) (String × List Call) :=
  match env.getService with
  | Except.error e => Except.error (e, [Call.getService])
  | Except.ok _ =>
    match env.getMetadata with
    | Except.error e => Except.error (e, [Call.getService, Call.getMetadata])
    | Except.ok sheets =>
      if sheets.isEmpty then
        Except.ok ("No sheets found in this spreadsheet.",
          [Call.getService, Call.getMetadata])
      else
        Except.ok (toMarkdownTable ["Index", "Title", "Sheet ID", "Grid Properties"]
          (sheets.map (fun s =>
            [toString s.index, s.title, toString s.sheetId, s.gridPropsStr])),
          [Call.getService, Call.getMetadata])

/-- list_sheets from src/server.py. -/
def list_sheets (cfg : Config) (env : Env) : String × List Call :=
  runTool cfg "Error listing sheets: " (list_sheets_body env)

/-- The A1 range requested in the tail-rows case: rows max(2, R-19)..R over
columns A..ZZ, as the source f-string builds it. -/
def tailRange (sheet_name : String) (rc : Nat) : String :=
  sq ++ sheet_name ++ sq ++ "!A" ++ toString (max 2 ((rc : Int) - 19)) ++
    ":ZZ" ++ toString (rc : Nat)

/-- The range of the separate header fetch in the tail-rows case. -/
def headerRange (sheet_name : String) : String := sq ++ sheet_name ++ sq ++ "!1:1"

/-- Tail of read_sheet_data after the target range is resolved: fetch the
range, report no data on an empty result, otherwise split header and body
(separate header fetch in the tail-rows case, first row otherwise), normalize
and render. -/
def fetchAndTabulate (env : Env) (sheet_name : String) (range_name : Option String)
    (last_20_rows : Bool) (target : String) (log : List Call) :
    Except (String × List Call) (String × List Call) :=
  match env.valuesGet target with
  | Except.error e => Except.error (e, log ++ [Call.valuesGet target])
  | Except.ok o =>
    let log2 := log ++ [Call.valuesGet target]
    match o.getD [] with
    | [] => Except.ok ("No data found.", log2)
    | v :: vs =>
      if last_20_rows && !(strTruthy range_name) then
        match env.valuesGet (headerRange sheet_name) with
        | Except.error e =>
          Except.error (e, log2 ++ [Call.valuesGet (headerRange sheet_name)])
        | Except.ok ho =>
          let log3 := log2 ++ [Call.valuesGet (headerRange sheet_name)]
          match ho.getD [[]] with
          | [] => Except.error ("list index out of range", log3)
          | header :: _ => Except.ok (tabulate header (v :: vs), log3)
      else
        Except.ok (tabulate v vs, log2)

/-- Target range resolved in the tail-rows branch from the fetched metadata:
the row count of the first sheet whose title matches (none when no sheet
matches, as the lookup loop leaves row_count at None); when that count is
truthy and greater than 1 the tail window, otherwise the whole sheet. -/
def tailTarget (sheets : List SheetProps) (sheet_name : String) : String :=
  match (sheets.find? (fun s => s.title == sheet_name)).map
      (fun s => s.gridRowCount) with
  | some r => if 1 < r then tailRange sheet_name r else sheet_name
  | none => sheet_name

/-- Body of read_sheet_data inside its try block: resolve the target range
(explicit range wins; else the tail-rows window computed from the metadata
row count, falling back to the whole sheet; else the whole sheet), then fetch
and tabulate. -/
def read_sheet_data_body (env : Env) (sheet_name : String)
    (range_name : Option String) (last_20_rows : Bool) :
    Except (String × List Call) (String × List Call) :=
  match env.getService with
  | Except.error e => Except.error (e, [Call.getService])
  | Except.ok _ =>
    if strTruthy range_name then
      fetchAndTabulate env sheet_name range_name last_20_rows
        (sq ++ sheet_name ++ sq ++ "!" ++ range_name.getD "") [Call.getService]
    else if last_20_rows then
      match env.getMetadata with
      | Except.error e => Except.error (e, [Call.getService, Call.getMetadata])
      | Except.ok sheets =>
        fetchAndTabulate env sheet_name range_name last_20_rows
          (tailTarget sheets sheet_name) [Call.getService, Call.getMetadata]
    else
      fetchAndTabulate env sheet_name range_name last_20_rows sheet_name
        [Call.getService]

/-- read_sheet_data from src/server.py. -/
def read_sheet_data (cfg : Config) (env : Env) (sheet_name : String)
    (range_name : Option String) (last_20_rows : Bool) : String × List Call :=
  runTool cfg "Error reading sheet data: "
    (read_sheet_data_body env sheet_name range_name last_20_rows)

/-- Body of create_sheet inside its try block. -/
def create_sheet_body (env : Env) (title : String) :
    Except (String × List Call) (String × List Call) :=
  match env.getService with
  | Except.error e => Except.error (e, [Call.getService])
  | Except.ok _ =>
    match env.batchUpdate (BatchReq.addSheet title) with
    | Except.error e =>
      Except.error (e, [Call.getService, Call.batchUpdate (BatchReq.addSheet title)])
    | Except.ok _ =>
      Except.ok ("Successfully created sheet " ++ sq ++ title ++ sq ++ ".",
        [Call.getService, Call.batchUpdate (BatchReq.addSheet title)])

/-- create_sheet from src/server.py. -/
def create_sheet (cfg : Config) (env : Env) (title : String) : String × List Call :=
  runTool cfg "Error creating sheet: " (create_sheet_body env title)

/-- Body of rename_sheet inside its try block: look up the sheet id by title
in the metadata; when absent return the not-found message (an ordinary
return, not an exception); otherwise issue the rename batch update. -/
def rename_sheet_body (env : Env) (old_title new_title : String) :
    Except (String × List Call) (String × List Call) :=
  match env.getService with
  | Except.error e => Except.error (e, [Call.getService])
  | Except.ok _ =>
    match env.getMetadata with
    | Except.error e => Except.error (e, [Call.getService, Call.getMetadata])
    | Except.ok sheets =>
      match (sheets.find? (fun s => s.title == old_title)).map
          (fun s => s.sheetId) with
      | none =>
        Except.ok ("Error: Sheet " ++ sq ++ old_title ++ sq ++ " not found.",
          [Call.getService, Call.getMetadata])
      | some sid =>
        let req := BatchReq.updateSheetTitle sid new_title
        match env.batchUpdate req with
        | Except.error e =>
          Except.error (e, [Call.getService, Call.getMetadata, Call.batchUpdate req])
        | Except.ok _ =>
          Except.ok ("Successfully renamed sheet " ++ sq ++ old_title ++ sq ++
            " to " ++ sq ++ new_title ++ sq ++ ".",
            [Call.getService, Call.getMetadata, Call.batchUpdate req])

/-- rename_sheet from src/server.py. -/
def rename_sheet (cfg : Config) (env : Env) (old_title new_title : String) :
    String × List Call :=
  runTool cfg "Error renaming sheet: " (rename_sheet_body env old_title new_title)

/-- Body of append_data inside its try block. -/
def append_data_body (env : Env) (sheet_name : String)
    (values : List (List String)) :
    Except (String × List Call) (String × List Call) :=
  match env.getService with
  | Except.error e => Except.error (e, [Call.getService])
  | Except.ok _ =>
    match env.valuesAppend sheet_name values with
    | Except.error e =>
      Except.error (e, [Call.getService, Call.valuesAppend sheet_name values])
    | Except.ok _ =>
      Except.ok ("Successfully appended " ++ toString values.length ++
        " rows to " ++ sq ++ sheet_name ++ sq ++ ".",
        [Call.getService, Call.valuesAppend sheet_name values])

/-- append_data from src/server.py. -/
def append_data (cfg : Config) (env : Env) (sheet_name : String)
    (values : List (List String)) : String × List Call :=
  runTool cfg "Error appending data: " (append_data_body env sheet_name values)

/-- Body of add_column inside its try block: read row 1, derive the target
column letter from the number of cells of row 1, write the header there, and
when column values are provided write them below it. -/
def add_column_body (env : Env) (sheet_name header : String)
    (values : Option (List String)) :
    Except (String × List Call) (String × List Call) :=
  match env.getService with
  | Except.error e => Except.error (e, [Call.getService])
  | Except.ok _ =>
    match env.valuesGet (headerRange sheet_name) with
    | Except.error e =>
      Except.error (e, [Call.getService, Call.valuesGet (headerRange sheet_name)])
    | Except.ok o =>
      let log2 := [Call.getService, Call.valuesGet (headerRange sheet_name)]
      match o.getD [[]] with
      | [] => Except.error ("list index out of range", log2)
      | row1 :: _ =>
        let col_letter := index_to_column row1.length
        let header_range := sq ++ sheet_name ++ sq ++ "!" ++ col_letter ++ "1"
        match env.valuesUpdate header_range [[header]] with
        | Except.error e =>
          Except.error (e, log2 ++ [Call.valuesUpdate header_range [[header]]])
        | Except.ok _ =>
          let log3 := log2 ++ [Call.valuesUpdate header_range [[header]]]
          let vs := values.getD []
          if vs.isEmpty then
            Except.ok ("Successfully added column " ++ sq ++ header ++ sq ++
              " at index " ++ col_letter ++ ".", log3)
          else
            let values_range := sq ++ sheet_name ++ sq ++ "!" ++ col_letter ++ "2"
            let body_values := vs.map (fun v => [v])
            match env.valuesUpdate values_range body_values with
            | Except.error e =>
              Except.error (e, log3 ++ [Call.valuesUpdate values_range body_values])
            | Except.ok _ =>
              Except.ok ("Successfully added column " ++ sq ++ header ++ sq ++
                " at index " ++ col_letter ++ ".",
                log3 ++ [Call.valuesUpdate values_range body_values])

/-- add_column from src/server.py. -/
def add_column (cfg : Config) (env : Env) (sheet_name header : String)
    (values : Option (List String)) : String × List Call :=
  runTool cfg "Error adding column: " (add_column_body env sheet_name header values)

/-- get_sheet_id from src/server.py: look up the sheetId of the first sheet
with the given title; any metadata failure is swallowed and yields none.  The
second component records the metadata call it issued. -/
def get_sheet_id (env : Env) (title : String) : Option Int × List Call :=
  match env.getMetadata with
  | Except.error _ => (none, [Call.getMetadata])
  | Except.ok sheets =>
    ((sheets.find? (fun s => s.title == title)).map (fun s => s.sheetId),
      [Call.getMetadata])

/-- Body of delete_sheet inside its try block. -/
def delete_sheet_body (env : Env) (sheet_name : String) :
    Except (String × List Call) (String × List Call) :=
  match env.getService with
  | Except.error e => Except.error (e, [Call.getService])
  | Except.ok _ =>
    match get_sheet_id env sheet_name with
    | (none, l) =>
      Except.ok ("Error: Sheet " ++ sq ++ sheet_name ++ sq ++ " not found.",
        Call.getService :: l)
    | (some sid, l) =>
      let req := BatchReq.deleteSheet sid
      match env.batchUpdate req with
      | Except.error e =>
        Except.error (e, Call.getService :: l ++ [Call.batchUpdate req])
      | Except.ok _ =>
        Except.ok ("Successfully deleted sheet " ++ sq ++ sheet_name ++ sq ++ ".",
          Call.getService :: l ++ [Call.batchUpdate req])

/-- delete_sheet from src/server.py. -/
def delete_sheet (cfg : Config) (env : Env) (sheet_name : String) :
    String × List Call :=
  runTool cfg "Error deleting sheet: " (delete_sheet_body env sheet_name)

/-- Body of delete_row inside its try block. -/
def delete_row_body (env : Env) (sheet_name : String) (start_index end_index : Int) :
    Except (String × List Call) (String × List Call) :=
  match env.getService with
  | Except.error e => Except.error (e, [Call.getService])
  | Except.ok _ =>
    match get_sheet_id env sheet_name with
    | (none, l) =>
      Except.ok ("Error: Sheet " ++ sq ++ sheet_name ++ sq ++ " not found.",
        Call.getService :: l)
    | (some sid, l) =>
      let req := BatchReq.deleteDimension sid Dim.rows start_index end_index
      match env.batchUpdate req with
      | Except.error e =>
        Except.error (e, Call.getService :: l ++ [Call.batchUpdate req])
      | Except.ok _ =>
        Except.ok ("Successfully deleted rows " ++ toString start_index ++
          " to " ++ toString end_index ++ " in " ++ sq ++ sheet_name ++ sq ++ ".",
          Call.getService :: l ++ [Call.batchUpdate req])

/-- delete_row from src/server.py. -/
def delete_row (cfg : Config) (env : Env) (sheet_name : String)
    (start_index end_index : Int) : String × List Call :=
  runTool cfg "Error deleting rows: "
    (delete_row_body env sheet_name start_index end_index)

/-- Body of delete_column inside its try block. -/
def delete_column_body (env : Env) (sheet_name : String)
    (start_index end_index : Int) :
    Except (String × List Call) (String × List Call) :=
  match env.getService with
  | Except.error e => Except.error (e, [Call.getService])
  | Except.ok _ =>
    match get_sheet_id env sheet_name with
    | (none, l) =>
      Except.ok ("Error: Sheet " ++ sq ++ sheet_name ++ sq ++ " not found.",
        Call.getService :: l)
    | (some sid, l) =>
      let req := BatchReq.deleteDimension sid Dim.columns start_index end_index
      match env.batchUpdate req with
      | Except.error e =>
        Except.error (e, Call.getService :: l ++ [Call.batchUpdate req])
      | Except.ok _ =>
        Except.ok ("Successfully deleted columns " ++ toString start_index ++
          " to " ++ toString end_index ++ " in " ++ sq ++ sheet_name ++ sq ++ ".",
          Call.getService :: l ++ [Call.batchUpdate req])

/-- delete_column from src/server.py. -/
def delete_column (cfg : Config) (env : Env) (sheet_name : String)
    (start_index end_index : Int) : String × List Call :=
  runTool cfg "Error deleting columns: "
    (delete_column_body env sheet_name start_index end_index)

/-- A result string that carries the error marker: it starts with Error. -/
def errorPrefixed (s : String) : Prop := ∃ t, s = "Error" ++ t

/-- A sample collaborator that answers every request successfully; used by
witnesses. -/
def envA : Env :=
  ⟨Except.ok (), Except.ok [⟨"S", 1, 0, 30, ""⟩],
    fun _ => Except.ok (some [["a"]]),
    fun _ _ => Except.ok (), fun _ _ => Except.ok (), fun _ => Except.ok ()⟩

/-- A sample collaborator whose sheet holds a short row followed by a longer
row; used to exhibit the ragged-normalization counterexample. -/
def envC : Env :=
  ⟨Except.ok (), Except.ok [⟨"S", 1, 0, 30, ""⟩],
    fun _ => Except.ok (some [["a", "b"], ["1"], ["1", "2", "3"]]),
    fun _ _ => Except.ok (), fun _ _ => Except.ok (), fun _ => Except.ok ()⟩

/-- A sample collaborator whose every request fails; used by witnesses. -/
def envFail : Env :=
  ⟨Except.error "boom", Except.error "boom",
    fun _ => Except.error "boom",
    fun _ _ => Except.error "boom", fun _ _ => Except.error "boom",
    fun _ => Except.error "boom"⟩


theorem itcFuel_congr : ∀ (f₁ f₂ index : Nat), index < f₁ → index < f₂ →
    itcFuel f₁ index = itcFuel f₂ index := by
  intro f₁
  induction f₁ with
  | zero => intro f₂ index h₁ _; omega
  | succ g₁ ih =>
    intro f₂ index h₁ h₂
    cases f₂ with
    | zero => omega
    | succ g₂ =>
      by_cases h : index < 26
      · simp [itcFuel, h]
      · have hdiv : index / 26 < index := Nat.div_lt_self (by omega) (by omega)
        simp only [itcFuel, if_neg h]
        rw [ih g₂ (index / 26 - 1) (by omega) (by omega)]

theorem itc_eq (index : Nat) :
    itc index = if index < 26 then [Char.ofNat (65 + index)]
      else itc (index / 26 - 1) ++ [Char.ofNat (65 + index % 26)] := by
  have hstep : itc index =
      if index < 26 then [Char.ofNat (65 + index)]
      else itcFuel index (index / 26 - 1) ++ [Char.ofNat (65 + index % 26)] := rfl
  rw [hstep]
  by_cases h : index < 26
  · rw [if_pos h, if_pos h]
  · have hdiv : index / 26 < index := Nat.div_lt_self (by omega) (by omega)
    rw [if_neg h, if_neg h,
      itcFuel_congr index (index / 26 - 1 + 1) (index / 26 - 1) (by omega) (by omega)]
    rfl

theorem char_code : ∀ r < 26, (Char.ofNat (65 + r)).toNat = 65 + r := by decide

theorem colVal_append (l : List Char) (c : Char) :
    colVal (l ++ [c]) = colVal l * 26 + (c.toNat - 64) := by
  simp [colVal, List.foldl_append]

theorem colVal_itc (n : Nat) : colVal (itc n) = n + 1 := by
  induction n using Nat.strong_induction_on with
  | _ n ih =>
    rw [itc_eq n]
    by_cases h : n < 26
    · simp only [if_pos h, colVal, List.foldl_cons, List.foldl_nil]
      rw [char_code n h]
      omega
    · have hdiv : n / 26 < n := Nat.div_lt_self (by omega) (by omega)
      rw [if_neg h, colVal_append, ih (n / 26 - 1) (by omega),
        char_code (n % 26) (Nat.mod_lt _ (by omega))]
      have h1 : 1 ≤ n / 26 := (Nat.one_le_div_iff (by omega)).mpr (by omega)
      have h2 := Nat.div_add_mod n 26
      omega

theorem index_to_column_injective : Function.Injective index_to_column := by
  intro a b hab
  have hl : itc a = itc b := congrArg String.data hab
  have := congrArg colVal hl
  rw [colVal_itc, colVal_itc] at this
  omega

theorem itc_codes (n : Nat) :
    itc n ≠ [] ∧ ∀ c ∈ itc n, 65 ≤ c.toNat ∧ c.toNat ≤ 90 := by
  induction n using Nat.strong_induction_on with
  | _ n ih =>
    rw [itc_eq n]
    by_cases h : n < 26
    · rw [if_pos h]
      refine ⟨by simp, ?_⟩
      intro c hc
      simp only [List.mem_singleton] at hc
      subst hc
      rw [char_code n h]
      omega
    · have hdiv : n / 26 < n := Nat.div_lt_self (by omega) (by omega)
      rw [if_neg h]
      refine ⟨by simp, ?_⟩
      intro c hc
      rcases List.mem_append.mp hc with hc | hc
      · exact (ih (n / 26 - 1) (by omega)).2 c hc
      · simp only [List.mem_singleton] at hc
        subst hc
        rw [char_code (n % 26) (Nat.mod_lt _ (by omega))]
        omega

theorem foldl_col_ge (l : List Char) :
    ∀ a : Nat, a ≤ l.foldl (fun a c => a * 26 + (c.toNat - 64)) a := by
  induction l with
  | nil => intro a; simp
  | cons c l ih =>
    intro a
    calc a ≤ a * 26 + (c.toNat - 64) := by omega
    _ ≤ _ := by simpa using ih (a * 26 + (c.toNat - 64))

theorem colVal_pos (l : List Char) (hne : l ≠ [])
    (hcode : ∀ c ∈ l, 65 ≤ c.toNat) : 1 ≤ colVal l := by
  match l, hne with
  | c :: l, _ =>
    have hc : 65 ≤ c.toNat := hcode c (by simp)
    have : (0 * 26 + (c.toNat - 64)) ≤ (c :: l).foldl (fun a c => a * 26 + (c.toNat - 64)) 0 := by
      simpa using foldl_col_ge l (0 * 26 + (c.toNat - 64))
    simp only [colVal]
    omega

theorem itc_colVal (l : List Char) : l ≠ [] →
    (∀ c ∈ l, 65 ≤ c.toNat ∧ c.toNat ≤ 90) → itc (colVal l - 1) = l := by
  induction l using List.reverseRecOn with
  | nil => intro h; exact absurd rfl h
  | append_singleton l c ih =>
    intro _ hcode
    have hc : 65 ≤ c.toNat ∧ c.toNat ≤ 90 := hcode c (by simp)
    rcases List.eq_nil_or_concat l with hnil | hcon
    · subst hnil
      have hval : colVal [c] = c.toNat - 64 := by simp [colVal]
      simp only [List.nil_append, hval]
      rw [itc_eq]
      rw [if_pos (by omega)]
      have : 65 + (c.toNat - 64 - 1) = c.toNat := by omega
      rw [this, Char.ofNat_toNat]
    · have hne : l ≠ [] := by
        obtain ⟨l₂, c₂, rfl⟩ := hcon
        simp
      have hvpos : 1 ≤ colVal l :=
        colVal_pos l hne (fun x hx => (hcode x (by simp [hx])).1)
      rw [colVal_append]
      set v := colVal l with hv
      have hd1 : 1 ≤ c.toNat - 64 := by omega
      have hd2 : c.toNat - 64 ≤ 26 := by omega
      have hn26 : ¬ (v * 26 + (c.toNat - 64) - 1 < 26) := by omega
      rw [itc_eq, if_neg hn26]
      have hmod : (v * 26 + (c.toNat - 64) - 1) % 26 = c.toNat - 64 - 1 := by
        have : v * 26 + (c.toNat - 64) - 1 = (c.toNat - 64 - 1) + v * 26 := by omega
        rw [this, Nat.add_mul_mod_self_right]
        exact Nat.mod_eq_of_lt (by omega)
      have hdivq : (v * 26 + (c.toNat - 64) - 1) / 26 = v := by
        have : v * 26 + (c.toNat - 64) - 1 = (c.toNat - 64 - 1) + v * 26 := by omega
        rw [this, Nat.add_mul_div_right _ _ (by omega : (0:Nat) < 26)]
        rw [Nat.div_eq_of_lt (by omega)]
        omega
      rw [hmod, hdivq]
      rw [ih hne (fun x hx => hcode x (by simp [hx]))]
      have : 65 + (c.toNat - 64 - 1) = c.toNat := by omega
      rw [this, Char.ofNat_toNat]

theorem index_to_column_surj (s : String) (hs : isColName s) :
    ∃ n : Nat, index_to_column n = s := by
  refine ⟨colVal s.data - 1, ?_⟩
  have := itc_colVal s.data hs.1 hs.2
  unfold index_to_column
  rw [this]

theorem normStep_lt (h : List String) (acc : List (List String)) (row : List String)
    (hlt : row.length < h.length) :
    normStep (h, acc) row =
      (h, acc ++ [row ++ List.replicate (h.length - row.length) ""]) := by
  simp [normStep, hlt]

theorem normStep_gt (h : List String) (acc : List (List String)) (row : List String)
    (hgt : h.length < row.length) :
    normStep (h, acc) row =
      (h ++ (List.range (row.length - h.length)).map
        (fun i => "Col_" ++ toString (h.length + i + 1)), acc ++ [row]) := by
  have h1 : ¬ row.length < h.length := by omega
  simp [normStep, h1, hgt]

theorem normStep_same (h : List String) (acc : List (List String)) (row : List String)
    (heq : row.length = h.length) :
    normStep (h, acc) row = (h, acc ++ [row]) := by
  have h1 : ¬ row.length < h.length := by omega
  have h2 : ¬ h.length < row.length := by omega
  simp [normStep, h1, h2]

theorem normStep_header_length (st : List String × List (List String))
    (row : List String) :
    (normStep st row).1.length = max st.1.length row.length := by
  by_cases h1 : row.length < st.1.length
  · simp [normStep, h1]; omega
  · by_cases h2 : st.1.length < row.length
    · simp [normStep, h1, h2]; omega
    · simp [normStep, h1, h2]; omega

theorem normStep_header_ext (st : List String × List (List String))
    (row : List String) : ∃ t, (normStep st row).1 = st.1 ++ t := by
  by_cases h1 : row.length < st.1.length
  · exact ⟨[], by simp [normStep, h1]⟩
  · by_cases h2 : st.1.length < row.length
    · exact ⟨(List.range (row.length - st.1.length)).map
        (fun i => "Col_" ++ toString (st.1.length + i + 1)),
        by simp [normStep, h1, h2]⟩
    · exact ⟨[], by simp [normStep, h1, h2]⟩

theorem normStep_body (st : List String × List (List String)) (row : List String) :
    ∃ nr, (normStep st row).2 = st.2 ++ [nr] ∧
      nr.length = (normStep st row).1.length := by
  by_cases h1 : row.length < st.1.length
  · refine ⟨row ++ List.replicate (st.1.length - row.length) "", ?_, ?_⟩
    · simp [normStep, h1]
    · simp [normStep, h1]; omega
  · by_cases h2 : st.1.length < row.length
    · refine ⟨row, ?_, ?_⟩
      · simp [normStep, h1, h2]
      · simp [normStep, h1, h2]; omega
    · exact ⟨row, by simp [normStep, h1, h2], by simp [normStep, h1, h2]; omega⟩

theorem norm_fold_header_ext (d : List (List String)) :
    ∀ st : List String × List (List String),
    ∃ t, (d.foldl normStep st).1 = st.1 ++ t := by
  induction d with
  | nil => intro st; exact ⟨[], by simp⟩
  | cons row d ih =>
    intro st
    obtain ⟨t₁, h₁⟩ := normStep_header_ext st row
    obtain ⟨t₂, h₂⟩ := ih (normStep st row)
    exact ⟨t₁ ++ t₂, by simp [List.foldl_cons, h₂, h₁]⟩

theorem norm_fold_le (d : List (List String)) :
    ∀ st : List String × List (List String),
    (∀ r ∈ st.2, r.length ≤ st.1.length) →
    ∀ r ∈ (d.foldl normStep st).2, r.length ≤ (d.foldl normStep st).1.length := by
  induction d with
  | nil => intro st h; simpa using h
  | cons row d ih =>
    intro st hst
    simp only [List.foldl_cons]
    apply ih
    obtain ⟨nr, hb, hlen⟩ := normStep_body st row
    have hh := normStep_header_length st row
    intro r hr
    rw [hb] at hr
    rcases List.mem_append.mp hr with hr | hr
    · calc r.length ≤ st.1.length := hst r hr
      _ ≤ (normStep st row).1.length := by omega
    · simp only [List.mem_singleton] at hr
      subst hr
      omega

theorem norm_fold_eq (d : List (List String)) :
    ∀ (h : List String) (acc : List (List String)),
    (∀ r ∈ d, r.length ≤ h.length) →
    (∀ r ∈ acc, r.length = h.length) →
    (d.foldl normStep (h, acc)).1 = h ∧
      ∀ r ∈ (d.foldl normStep (h, acc)).2, r.length = h.length := by
  induction d with
  | nil => intro h acc _ hacc; exact ⟨rfl, hacc⟩
  | cons row d ih =>
    intro h acc hd hacc
    have hrow : row.length ≤ h.length := hd row (by simp)
    simp only [List.foldl_cons]
    rcases Nat.lt_or_ge row.length h.length with hlt | hge
    · rw [normStep_lt h acc row hlt]
      apply ih
      · intro r hr; exact hd r (by simp [hr])
      · intro r hr
        rcases List.mem_append.mp hr with hr | hr
        · exact hacc r hr
        · simp only [List.mem_singleton] at hr
          subst hr
          simp
          omega
    · have heq : row.length = h.length := by omega
      rw [normStep_same h acc row heq]
      apply ih
      · intro r hr; exact hd r (by simp [hr])
      · intro r hr
        rcases List.mem_append.mp hr with hr | hr
        · exact hacc r hr
        · simp only [List.mem_singleton] at hr
          subst hr
          exact heq

/-- C1 counterexample: with header [a, b] and body rows [1] then [1, 2, 3]
(a pair read_sheet_data produces from a whole-sheet fetch returning those
three rows, as the first conjunct shows), the first body row is padded only
to the header length current at its turn (two cells) while the later longer
row grows the header to three labels, so after the pass the first row is
shorter than the final header. -/
theorem C1_counterexample :
    (read_sheet_data ⟨some "id"⟩ envC "S" none false).1 =
      tabulate ["a", "b"] [["1"], ["1", "2", "3"]] ∧
    ¬ (∀ r ∈ (normalize ["a", "b"] [["1"], ["1", "2", "3"]]).2,
        r.length = (normalize ["a", "b"] [["1"], ["1", "2", "3"]]).1.length) := by
  constructor
  · rfl
  · decide

/-- C1 (amended): after the normalization pass of read_sheet_data, every body
row has at most as many cells as the final header; and when no body row is
longer than the initial header, every body row has exactly as many cells as
the (then unchanged) header. -/
theorem C1_row_lengths :
    (∀ (h : List String) (d : List (List String)),
      ∀ r ∈ (normalize h d).2, r.length ≤ (normalize h d).1.length) ∧
    (∀ (h : List String) (d : List (List String)),
      (∀ r ∈ d, r.length ≤ h.length) →
      ∀ r ∈ (normalize h d).2, r.length = (normalize h d).1.length) := by
  constructor
  · intro h d
    exact norm_fold_le d (h, []) (by simp)
  · intro h d hd
    obtain ⟨hh, hr⟩ := norm_fold_eq d h [] hd (by simp)
    intro r hrm
    rw [show (normalize h d).1 = h from hh]
    exact hr r hrm

theorem C1_row_lengths_witness :
    (["x", "y"] : List String).length =
      (normalize ["a", "b"] [["1"], ["x", "y"]]).1.length :=
  C1_row_lengths.2 ["a", "b"] [["1"], ["x", "y"]] (by decide) ["x", "y"] (by decide)

/-- C2: the normalization step pads a shorter body row on the right with
empty strings to the header length, extends the header with labels
Col_(m+1).. for a longer row, the header across the whole pass only ever
grows (the original header stays a prefix), and the two concrete examples of
the specification hold. -/
theorem C2_rectangularization :
    (∀ (h : List String) (acc : List (List String)) (row : List String),
      row.length < h.length →
      normStep (h, acc) row =
        (h, acc ++ [row ++ List.replicate (h.length - row.length) ""])) ∧
    (∀ (h : List String) (acc : List (List String)) (row : List String),
      h.length < row.length →
      normStep (h, acc) row =
        (h ++ (List.range (row.length - h.length)).map
          (fun i => "Col_" ++ toString (h.length + i + 1)), acc ++ [row])) ∧
    (∀ (h : List String) (d : List (List String)),
      ∃ t, (normalize h d).1 = h ++ t) ∧
    normalize ["a", "b"] [["1"]] = (["a", "b"], [["1", ""]]) ∧
    normalize ["a", "b"] [["1", "2", "3"]] =
      (["a", "b", "Col_3"], [["1", "2", "3"]]) := by
  refine ⟨normStep_lt, normStep_gt, ?_, by decide, by decide⟩
  intro h d
  exact norm_fold_header_ext d (h, [])

theorem C2_rectangularization_witness :
    normStep (["a", "b"], []) ["1"] = (["a", "b"], [["1", ""]]) :=
  (C2_rectangularization.1 ["a", "b"] [] ["1"] (by decide)).trans (by decide)

/-- C5: index_to_column is the standard 1-based bijective base-26 letter
encoding: 0 maps to A, 25 to Z, 26 to AA; it is injective on the naturals,
lands in the set of nonempty uppercase-letter strings, and hits every such
string, hence is a bijection onto the standard column-letter sequence. -/
theorem C5_index_to_column_bijection :
    index_to_column 0 = "A" ∧
    index_to_column 25 = "Z" ∧
    index_to_column 26 = "AA" ∧
    Function.Injective index_to_column ∧
    (∀ n : Nat, isColName (index_to_column n)) ∧
    (∀ s : String, isColName s → ∃ n : Nat, index_to_column n = s) := by
  refine ⟨by decide, by decide, by decide, index_to_column_injective, ?_, ?_⟩
  · intro n
    exact (itc_codes n : _)
  · exact index_to_column_surj

theorem C5_index_to_column_bijection_witness :
    ((37 : Nat) = 37) ∧ ∃ n : Nat, index_to_column n = "AB" :=
  ⟨C5_index_to_column_bijection.2.2.2.1 (rfl : index_to_column 37 = index_to_column 37),
    C5_index_to_column_bijection.2.2.2.2.2 "AB" (by decide)⟩

theorem runTool_res (cfg : Config) (msg : String)
    (body : Except (String × List Call) (String × List Call))
    (h : cfgUnset cfg = false) :
    runTool cfg msg body =
      match body with
      | Except.ok p => p
      | Except.error p => (msg ++ p.1, p.2) := by
  simp [runTool, h]

theorem runTool_log (cfg : Config) (msg : String)
    (body : Except (String × List Call) (String × List Call))
    (h : cfgUnset cfg = false) :
    (runTool cfg msg body).2 = logOf body := by
  rw [runTool_res cfg msg body h]
  cases body <;> simp [logOf]

theorem fetch_log_start (env : Env) (n : String) (rn : Option String)
    (l20 : Bool) (t : String) (log : List Call) :
    ∃ rest, logOf (fetchAndTabulate env n rn l20 t log) =
      (log ++ [Call.valuesGet t]) ++ rest := by
  unfold fetchAndTabulate
  cases henv : env.valuesGet t with
  | error e => exact ⟨[], by simp [logOf]⟩
  | ok o =>
    cases hod : o.getD [] with
    | nil => exact ⟨[], by simp [logOf, hod]⟩
    | cons v vs =>
      by_cases hc : (l20 && !(strTruthy rn)) = true
      · simp only [hc, if_true]
        cases hh : env.valuesGet (headerRange n) with
        | error e => exact ⟨[Call.valuesGet (headerRange n)], by simp [logOf, hod]⟩
        | ok ho =>
          cases hd : ho.getD [[]] with
          | nil => exact ⟨[Call.valuesGet (headerRange n)], by simp [logOf, hod, hd]⟩
          | cons hrow hrest =>
            exact ⟨[Call.valuesGet (headerRange n)], by simp [logOf, hod, hd]⟩
      · simp only [hc, if_false]
        exact ⟨[], by simp [logOf, hod]⟩

theorem fetch_header_mem (env : Env) (n : String) (rn : Option String)
    (l20 : Bool) (t : String) (log : List Call)
    (v : List String) (vs : List (List String))
    (hv : env.valuesGet t = Except.ok (some (v :: vs)))
    (hc : (l20 && !(strTruthy rn)) = true) :
    Call.valuesGet (headerRange n) ∈ logOf (fetchAndTabulate env n rn l20 t log) := by
  unfold fetchAndTabulate
  rw [hv]
  simp only [Option.getD_some, hc, if_true]
  cases hh : env.valuesGet (headerRange n) with
  | error e => simp [logOf]
  | ok ho =>
    cases hd : ho.getD [[]] with
    | nil => simp [logOf, hd]
    | cons hrow hrest => simp [logOf, hd]

theorem httpCalls_append (l₁ l₂ : List Call) :
    httpCalls (l₁ ++ l₂) = httpCalls l₁ + httpCalls l₂ := by
  simp [httpCalls, List.filter_append]

theorem fetch_http_le (env : Env) (n : String) (rn : Option String)
    (l20 : Bool) (t : String) (log : List Call) :
    httpCalls (logOf (fetchAndTabulate env n rn l20 t log)) ≤ httpCalls log + 2 := by
  obtain ⟨rest, hrest⟩ := fetch_log_start env n rn l20 t log
  unfold fetchAndTabulate at hrest ⊢
  cases henv : env.valuesGet t with
  | error e => simp [logOf, httpCalls_append, httpCalls, isHttp]
  | ok o =>
    cases hod : o.getD [] with
    | nil => simp [logOf, hod, httpCalls_append, httpCalls, isHttp]
    | cons v vs =>
      by_cases hc : (l20 && !(strTruthy rn)) = true
      · simp only [hc, if_true]
        cases hh : env.valuesGet (headerRange n) with
        | error e => simp [logOf, hod, httpCalls_append, httpCalls, isHttp]
        | ok ho =>
          cases hd : ho.getD [[]] with
          | nil => simp [logOf, hod, hd, httpCalls_append, httpCalls, isHttp]
          | cons hrow hrest₂ =>
            simp [logOf, hod, hd, httpCalls_append, httpCalls, isHttp]
      · simp only [hc, if_false]
        simp [logOf, hod, httpCalls_append, httpCalls, isHttp]

/-- C3: with the tail-rows flag and no explicit range, when the metadata row
count R of the named sheet exceeds 1 the body fetch requests rows
max(2, R-19)..R (columns A..ZZ) and a separate fetch requests row 1 for the
header; when R is at most 1 the whole sheet is fetched instead. -/
theorem C3_tail_window :
    ∀ (cfg : Config) (env : Env) (name : String) (sheets : List SheetProps)
      (p : SheetProps),
    cfgUnset cfg = false →
    env.getService = Except.ok () →
    env.getMetadata = Except.ok sheets →
    sheets.find? (fun s => s.title == name) = some p →
    ((1 < p.gridRowCount →
      (∃ rest, (read_sheet_data cfg env name none true).2 =
        [Call.getService, Call.getMetadata,
          Call.valuesGet (sq ++ name ++ sq ++ "!A" ++
            toString (max 2 ((p.gridRowCount : Int) - 19)) ++ ":ZZ" ++
            toString p.gridRowCount)] ++ rest) ∧
      (∀ (v : List String) (vs : List (List String)),
        env.valuesGet (tailRange name p.gridRowCount) = Except.ok (some (v :: vs)) →
        Call.valuesGet (sq ++ name ++ sq ++ "!1:1") ∈
          (read_sheet_data cfg env name none true).2)) ∧
    (p.gridRowCount ≤ 1 →
      ∃ rest, (read_sheet_data cfg env name none true).2 =
        [Call.getService, Call.getMetadata, Call.valuesGet name] ++ rest)) := by
  intro cfg env name sheets p hcfg hsvc hmeta hfind
  have hbody : (read_sheet_data cfg env name none true).2 =
      logOf (read_sheet_data_body env name none true) :=
    runTool_log cfg _ _ hcfg
  have htt : read_sheet_data_body env name none true =
      fetchAndTabulate env name none true (tailTarget sheets name)
        [Call.getService, Call.getMetadata] := by
    simp [read_sheet_data_body, hsvc, strTruthy, hmeta]
  constructor
  · intro hR
    have htarget : tailTarget sheets name = tailRange name p.gridRowCount := by
      simp [tailTarget, hfind, hR]
    constructor
    · obtain ⟨rest, hrest⟩ := fetch_log_start env name none true
        (tailTarget sheets name) [Call.getService, Call.getMetadata]
      refine ⟨rest, ?_⟩
      rw [hbody, htt, hrest, htarget]
      simp [tailRange]
    · intro v vs hv
      rw [hbody, htt]
      have := fetch_header_mem env name none true (tailTarget sheets name)
        [Call.getService, Call.getMetadata] v vs (by rw [htarget]; exact hv)
        (by simp [strTruthy])
      simpa [headerRange] using this
  · intro hR
    have htarget : tailTarget sheets name = name := by
      have : ¬ (1 < p.gridRowCount) := by omega
      simp [tailTarget, hfind, this]
    obtain ⟨rest, hrest⟩ := fetch_log_start env name none true
      (tailTarget sheets name) [Call.getService, Call.getMetadata]
    refine ⟨rest, ?_⟩
    rw [hbody, htt, hrest, htarget]
    simp

theorem fetch_ok_notail (env : Env) (n : String) (rn : Option String)
    (l20 : Bool) (t : String) (log : List Call)
    (v : List String) (vs : List (List String))
    (hc : (l20 && !(strTruthy rn)) = false)
    (hv : env.valuesGet t = Except.ok (some (v :: vs))) :
    fetchAndTabulate env n rn l20 t log =
      Except.ok (tabulate v vs, log ++ [Call.valuesGet t]) := by
  unfold fetchAndTabulate
  rw [hv]
  simp [hc]

theorem fetch_ok_tail (env : Env) (n : String) (rn : Option String)
    (l20 : Bool) (t : String) (log : List Call)
    (v h : List String) (vs hs : List (List String))
    (hc : (l20 && !(strTruthy rn)) = true)
    (hv : env.valuesGet t = Except.ok (some (v :: vs)))
    (hh : env.valuesGet (headerRange n) = Except.ok (some (h :: hs))) :
    fetchAndTabulate env n rn l20 t log =
      Except.ok (tabulate h (v :: vs),
        log ++ [Call.valuesGet t, Call.valuesGet (headerRange n)]) := by
  unfold fetchAndTabulate
  rw [hv]
  simp [hc, hh]

theorem read_res_of_body_ok (cfg : Config) (env : Env) (name : String)
    (rn : Option String) (l20 : Bool) (p : String × List Call)
    (hcfg : cfgUnset cfg = false)
    (hb : read_sheet_data_body env name rn l20 = Except.ok p) :
    read_sheet_data cfg env name rn l20 = p := by
  unfold read_sheet_data
  rw [runTool_res _ _ _ hcfg, hb]

/-- C4: in the whole-sheet and explicit-range cases the first fetched row is
the header and the remaining rows are the body; in the tail-rows case
(tail flag set, no explicit range) the header comes from the separate row-1
fetch and every row of the main fetch is body. -/
theorem C4_header_body_split :
    (∀ (cfg : Config) (env : Env) (name rng : String) (l20 : Bool)
      (v : List String) (vs : List (List String)),
      cfgUnset cfg = false → env.getService = Except.ok () → rng ≠ "" →
      env.valuesGet (sq ++ name ++ sq ++ "!" ++ rng) = Except.ok (some (v :: vs)) →
      (read_sheet_data cfg env name (some rng) l20).1 = tabulate v vs) ∧
    (∀ (cfg : Config) (env : Env) (name : String)
      (v : List String) (vs : List (List String)),
      cfgUnset cfg = false → env.getService = Except.ok () →
      env.valuesGet name = Except.ok (some (v :: vs)) →
      (read_sheet_data cfg env name none false).1 = tabulate v vs) ∧
    (∀ (cfg : Config) (env : Env) (name : String) (sheets : List SheetProps)
      (v h : List String) (vs hs : List (List String)),
      cfgUnset cfg = false → env.getService = Except.ok () →
      env.getMetadata = Except.ok sheets →
      env.valuesGet (tailTarget sheets name) = Except.ok (some (v :: vs)) →
      env.valuesGet (sq ++ name ++ sq ++ "!1:1") = Except.ok (some (h :: hs)) →
      (read_sheet_data cfg env name none true).1 = tabulate h (v :: vs)) := by
  refine ⟨?_, ?_, ?_⟩
  · intro cfg env name rng l20 v vs hcfg hsvc hrng hv
    have htr : strTruthy (some rng) = true := by simp [strTruthy, hrng]
    have hb : read_sheet_data_body env name (some rng) l20 =
        Except.ok (tabulate v vs,
          [Call.getService, Call.valuesGet (sq ++ name ++ sq ++ "!" ++ rng)]) := by
      simp only [read_sheet_data_body, hsvc, htr, if_true, Option.getD_some]
      rw [fetch_ok_notail env name (some rng) l20 _ _ v vs (by simp [htr]) hv]
      rfl
    rw [read_res_of_body_ok cfg env name (some rng) l20 _ hcfg hb]
  · intro cfg env name v vs hcfg hsvc hv
    have hb : read_sheet_data_body env name none false =
        Except.ok (tabulate v vs, [Call.getService, Call.valuesGet name]) := by
      simp only [read_sheet_data_body, hsvc, strTruthy, Bool.false_eq_true,
        if_false]
      rw [fetch_ok_notail env name none false name _ v vs (by simp [strTruthy]) hv]
      rfl
    rw [read_res_of_body_ok cfg env name none false _ hcfg hb]
  · intro cfg env name sheets v h vs hs hcfg hsvc hmeta hv hh
    have hb : read_sheet_data_body env name none true =
        Except.ok (tabulate h (v :: vs),
          [Call.getService, Call.getMetadata,
            Call.valuesGet (tailTarget sheets name),
            Call.valuesGet (sq ++ name ++ sq ++ "!1:1")]) := by
      simp only [read_sheet_data_body, hsvc, strTruthy, Bool.false_eq_true,
        if_false, if_true, hmeta]
      rw [fetch_ok_tail env name none true (tailTarget sheets name) _ v h vs hs
        (by simp [strTruthy]) hv (by simpa [headerRange] using hh)]
      rfl
    rw [read_res_of_body_ok cfg env name none true _ hcfg hb]

theorem runTool_http_le (cfg : Config) (msg : String)
    (body : Except (String × List Call) (String × List Call)) :
    httpCalls (runTool cfg msg body).2 ≤ httpCalls (logOf body) := by
  by_cases h : cfgUnset cfg = true
  · simp [runTool, h, httpCalls]
  · rw [runTool_log cfg msg body (by simpa using h)]

theorem read_body_http_le (env : Env) (name : String) (rn : Option String)
    (l20 : Bool) :
    httpCalls (logOf (read_sheet_data_body env name rn l20)) ≤ 3 := by
  have h0 : httpCalls [Call.getService] = 0 := by simp [httpCalls, isHttp]
  have h1 : httpCalls [Call.getService, Call.getMetadata] = 1 := by
    simp [httpCalls, isHttp]
  unfold read_sheet_data_body
  cases hsvc : env.getService with
  | error e => simp [logOf, httpCalls, isHttp]
  | ok u =>
    by_cases htr : strTruthy rn = true
    · simp only [htr, if_true]
      have := fetch_http_le env name rn l20
        (sq ++ name ++ sq ++ "!" ++ rn.getD "") [Call.getService]
      omega
    · have htr' : strTruthy rn = false := by simpa using htr
      simp only [htr', Bool.false_eq_true, if_false]
      cases l20 with
      | false =>
        simp only [Bool.false_eq_true, if_false]
        have := fetch_http_le env name rn false name [Call.getService]
        omega
      | true =>
        simp only [if_true]
        cases hmeta : env.getMetadata with
        | error e => simp [logOf, httpCalls, isHttp]
        | ok sheets =>
          show httpCalls (logOf (fetchAndTabulate env name rn true
            (tailTarget sheets name) [Call.getService, Call.getMetadata])) ≤ 3
          have := fetch_http_le env name rn true (tailTarget sheets name)
            [Call.getService, Call.getMetadata]
          omega

theorem list_sheets_body_http_le (env : Env) :
    httpCalls (logOf (list_sheets_body env)) ≤ 2 := by
  unfold list_sheets_body
  cases env.getService with
  | error e => simp [logOf, httpCalls, isHttp]
  | ok u =>
    cases env.getMetadata with
    | error e => simp [logOf, httpCalls, isHttp]
    | ok sheets =>
      by_cases h : sheets.isEmpty = true <;> simp [h, logOf, httpCalls, isHttp]

theorem create_sheet_body_http_le (env : Env) (title : String) :
    httpCalls (logOf (create_sheet_body env title)) ≤ 2 := by
  unfold create_sheet_body
  cases env.getService with
  | error e => simp [logOf, httpCalls, isHttp]
  | ok u =>
    cases env.batchUpdate (BatchReq.addSheet title) <;>
      simp [logOf, httpCalls, isHttp]

theorem rename_sheet_body_http_le (env : Env) (old_title new_title : String) :
    httpCalls (logOf (rename_sheet_body env old_title new_title)) ≤ 2 := by
  unfold rename_sheet_body
  cases env.getService with
  | error e => simp [logOf, httpCalls, isHttp]
  | ok u =>
    cases env.getMetadata with
    | error e => simp [logOf, httpCalls, isHttp]
    | ok sheets =>
      cases hfind : (sheets.find? (fun s => s.title == old_title)).map
          (fun s => s.sheetId) with
      | none => simp [hfind, logOf, httpCalls, isHttp]
      | some sid =>
        cases hbu : env.batchUpdate (BatchReq.updateSheetTitle sid new_title) <;>
          simp [hfind, hbu, logOf, httpCalls, isHttp]

theorem append_data_body_http_le (env : Env) (name : String)
    (values : List (List String)) :
    httpCalls (logOf (append_data_body env name values)) ≤ 2 := by
  unfold append_data_body
  cases env.getService with
  | error e => simp [logOf, httpCalls, isHttp]
  | ok u =>
    cases env.valuesAppend name values <;> simp [logOf, httpCalls, isHttp]

theorem add_column_body_http_le (env : Env) (name hdr : String)
    (values : Option (List String)) :
    httpCalls (logOf (add_column_body env name hdr values)) ≤ 3 := by
  unfold add_column_body
  cases env.getService with
  | error e => simp [logOf, httpCalls, isHttp]
  | ok u =>
    cases env.valuesGet (headerRange name) with
    | error e => simp [logOf, httpCalls, isHttp]
    | ok o =>
      cases hod : o.getD [[]] with
      | nil => simp [hod, logOf, httpCalls, isHttp]
      | cons row1 rest =>
        cases hu1 : env.valuesUpdate
            (sq ++ name ++ sq ++ "!" ++ index_to_column row1.length ++ "1")
            [[hdr]] with
        | error e => simp [hod, hu1, logOf, httpCalls, isHttp]
        | ok u2 =>
          by_cases hv : (values.getD []).isEmpty = true
          · simp [hod, hu1, hv, logOf, httpCalls, isHttp]
          · cases hu2 : env.valuesUpdate
                (sq ++ name ++ sq ++ "!" ++ index_to_column row1.length ++ "2")
                ((values.getD []).map (fun v => [v])) <;>
              simp [hod, hu1, hv, hu2, logOf, httpCalls, isHttp]

theorem get_sheet_id_http (env : Env) (title : String) :
    httpCalls (get_sheet_id env title).2 ≤ 1 := by
  unfold get_sheet_id
  cases env.getMetadata <;> simp [httpCalls, isHttp]

theorem delete_sheet_body_http_le (env : Env) (name : String) :
    httpCalls (logOf (delete_sheet_body env name)) ≤ 2 := by
  unfold delete_sheet_body
  cases env.getService with
  | error e => simp [logOf, httpCalls, isHttp]
  | ok u =>
    cases hid : get_sheet_id env name with
    | mk oid l =>
      have hl : (List.filter isHttp l).length ≤ 1 := by
        have := get_sheet_id_http env name
        rw [hid] at this
        simpa [httpCalls] using this
      cases oid with
      | none =>
        simp [logOf, httpCalls, List.filter_cons, isHttp]
        omega
      | some sid =>
        cases hbu : env.batchUpdate (BatchReq.deleteSheet sid) <;>
          simp [hbu, logOf, httpCalls, List.filter_cons, List.filter_append,
            isHttp] <;>
          omega

theorem delete_row_body_http_le (env : Env) (name : String) (i j : Int) :
    httpCalls (logOf (delete_row_body env name i j)) ≤ 2 := by
  unfold delete_row_body
  cases env.getService with
  | error e => simp [logOf, httpCalls, isHttp]
  | ok u =>
    cases hid : get_sheet_id env name with
    | mk oid l =>
      have hl : (List.filter isHttp l).length ≤ 1 := by
        have := get_sheet_id_http env name
        rw [hid] at this
        simpa [httpCalls] using this
      cases oid with
      | none =>
        simp [logOf, httpCalls, List.filter_cons, isHttp]
        omega
      | some sid =>
        cases hbu : env.batchUpdate (BatchReq.deleteDimension sid Dim.rows i j) <;>
          simp [hbu, logOf, httpCalls, List.filter_cons, List.filter_append,
            isHttp] <;>
          omega

theorem delete_column_body_http_le (env : Env) (name : String) (i j : Int) :
    httpCalls (logOf (delete_column_body env name i j)) ≤ 2 := by
  unfold delete_column_body
  cases env.getService with
  | error e => simp [logOf, httpCalls, isHttp]
  | ok u =>
    cases hid : get_sheet_id env name with
    | mk oid l =>
      have hl : (List.filter isHttp l).length ≤ 1 := by
        have := get_sheet_id_http env name
        rw [hid] at this
        simpa [httpCalls] using this
      cases oid with
      | none =>
        simp [logOf, httpCalls, List.filter_cons, isHttp]
        omega
      | some sid =>
        cases hbu : env.batchUpdate (BatchReq.deleteDimension sid Dim.columns i j) <;>
          simp [hbu, logOf, httpCalls, List.filter_cons, List.filter_append,
            isHttp] <;>
          omega

/-- C6 counterexample: a tail-rows read on a sheet with 30 metadata rows and
a nonempty body issues three HTTP calls (metadata, body range, separate
header row), exceeding the claimed bound of two. -/
theorem C6_counterexample :
    httpCalls (read_sheet_data ⟨some "id"⟩ envA "S" none true).2 = 3 ∧
    ¬ httpCalls (read_sheet_data ⟨some "id"⟩ envA "S" none true).2 ≤ 2 := by
  constructor <;> decide

/-- C6 (amended): every tool issues at most three HTTP calls per invocation;
every tool except read_sheet_data (three in the tail-rows case) and
add_column (three when column values are provided) issues at most two. -/
theorem C6_http_call_bound :
    ∀ (cfg : Config) (env : Env) (name hdr old_t new_t : String)
      (rn : Option String) (l20 : Bool) (rows : List (List String))
      (colv : Option (List String)) (i j : Int),
    httpCalls (list_sheets cfg env).2 ≤ 2 ∧
    httpCalls (read_sheet_data cfg env name rn l20).2 ≤ 3 ∧
    httpCalls (create_sheet cfg env name).2 ≤ 2 ∧
    httpCalls (rename_sheet cfg env old_t new_t).2 ≤ 2 ∧
    httpCalls (append_data cfg env name rows).2 ≤ 2 ∧
    httpCalls (add_column cfg env name hdr colv).2 ≤ 3 ∧
    httpCalls (delete_sheet cfg env name).2 ≤ 2 ∧
    httpCalls (delete_row cfg env name i j).2 ≤ 2 ∧
    httpCalls (delete_column cfg env name i j).2 ≤ 2 := by
  intro cfg env name hdr old_t new_t rn l20 rows colv i j
  refine ⟨?_, ?_, ?_, ?_, ?_, ?_, ?_, ?_, ?_⟩
  · exact le_trans (runTool_http_le cfg _ _) (list_sheets_body_http_le env)
  · exact le_trans (runTool_http_le cfg _ _) (read_body_http_le env name rn l20)
  · exact le_trans (runTool_http_le cfg _ _) (create_sheet_body_http_le env name)
  · exact le_trans (runTool_http_le cfg _ _)
      (rename_sheet_body_http_le env old_t new_t)
  · exact le_trans (runTool_http_le cfg _ _) (append_data_body_http_le env name rows)
  · exact le_trans (runTool_http_le cfg _ _)
      (add_column_body_http_le env name hdr colv)
  · exact le_trans (runTool_http_le cfg _ _) (delete_sheet_body_http_le env name)
  · exact le_trans (runTool_http_le cfg _ _) (delete_row_body_http_le env name i j)
  · exact le_trans (runTool_http_le cfg _ _)
      (delete_column_body_http_le env name i j)

/-- C7: when SPREADSHEET_ID is unset (or empty), every tool returns the
configuration error string and issues no collaborator call at all: no service
is built and no HTTP request is made (the call log is empty). -/
theorem C7_unset_spreadsheet_id :
    ∀ (cfg : Config) (env : Env) (name hdr old_t new_t : String)
      (rn : Option String) (l20 : Bool) (rows : List (List String))
      (colv : Option (List String)) (i j : Int),
    cfgUnset cfg = true →
    list_sheets cfg env = (errNoId, []) ∧
    read_sheet_data cfg env name rn l20 = (errNoId, []) ∧
    create_sheet cfg env name = (errNoId, []) ∧
    rename_sheet cfg env old_t new_t = (errNoId, []) ∧
    append_data cfg env name rows = (errNoId, []) ∧
    add_column cfg env name hdr colv = (errNoId, []) ∧
    delete_sheet cfg env name = (errNoId, []) ∧
    delete_row cfg env name i j = (errNoId, []) ∧
    delete_column cfg env name i j = (errNoId, []) := by
  intro cfg env name hdr old_t new_t rn l20 rows colv i j h
  refine ⟨?_, ?_, ?_, ?_, ?_, ?_, ?_, ?_, ?_⟩ <;>
    simp [list_sheets, read_sheet_data, create_sheet, rename_sheet, append_data,
      add_column, delete_sheet, delete_row, delete_column, runTool, h]

theorem C7_unset_spreadsheet_id_witness :
    list_sheets ⟨none⟩ envA = (errNoId, []) :=
  (C7_unset_spreadsheet_id ⟨none⟩ envA "S" "H" "a" "b" none false [] none 0 1
    (by decide)).1

/-- A string that extends an Error-prefixed literal is Error-prefixed. -/
theorem errorPrefixed_of (pre e u : String) (hpre : pre = "Error" ++ u) :
    errorPrefixed (pre ++ e) :=
  ⟨u ++ e, by rw [hpre, String.append_assoc]⟩

/-- C8: any exception inside a tool body (in this model: any failure of the
external collaborator surfacing as an error of the body) is caught at the
tool boundary and converted into the tool-specific descriptive string, which
starts with Error; the tool returns normally with the calls issued so far.
Every tool is a total function, so no invocation raises. -/
theorem C8_error_boundary :
    ∀ (cfg : Config) (env : Env) (name hdr old_t new_t : String)
      (rn : Option String) (l20 : Bool) (rows : List (List String))
      (colv : Option (List String)) (i j : Int) (e : String) (l : List Call),
    cfgUnset cfg = false →
    (list_sheets_body env = Except.error (e, l) →
      list_sheets cfg env = ("Error listing sheets: " ++ e, l) ∧
      errorPrefixed (list_sheets cfg env).1) ∧
    (read_sheet_data_body env name rn l20 = Except.error (e, l) →
      read_sheet_data cfg env name rn l20 = ("Error reading sheet data: " ++ e, l) ∧
      errorPrefixed (read_sheet_data cfg env name rn l20).1) ∧
    (create_sheet_body env name = Except.error (e, l) →
      create_sheet cfg env name = ("Error creating sheet: " ++ e, l) ∧
      errorPrefixed (create_sheet cfg env name).1) ∧
    (rename_sheet_body env old_t new_t = Except.error (e, l) →
      rename_sheet cfg env old_t new_t = ("Error renaming sheet: " ++ e, l) ∧
      errorPrefixed (rename_sheet cfg env old_t new_t).1) ∧
    (append_data_body env name rows = Except.error (e, l) →
      append_data cfg env name rows = ("Error appending data: " ++ e, l) ∧
      errorPrefixed (append_data cfg env name rows).1) ∧
    (add_column_body env name hdr colv = Except.error (e, l) →
      add_column cfg env name hdr colv = ("Error adding column: " ++ e, l) ∧
      errorPrefixed (add_column cfg env name hdr colv).1) ∧
    (delete_sheet_body env name = Except.error (e, l) →
      delete_sheet cfg env name = ("Error deleting sheet: " ++ e, l) ∧
      errorPrefixed (delete_sheet cfg env name).1) ∧
    (delete_row_body env name i j = Except.error (e, l) →
      delete_row cfg env name i j = ("Error deleting rows: " ++ e, l) ∧
      errorPrefixed (delete_row cfg env name i j).1) ∧
    (delete_column_body env name i j = Except.error (e, l) →
      delete_column cfg env name i j = ("Error deleting columns: " ++ e, l) ∧
      errorPrefixed (delete_column cfg env name i j).1) := by
  intro cfg env name hdr old_t new_t rn l20 rows colv i j e l hcfg
  refine ⟨?_, ?_, ?_, ?_, ?_, ?_, ?_, ?_, ?_⟩
  · intro hb
    have h1 : list_sheets cfg env = ("Error listing sheets: " ++ e, l) := by
      simp [list_sheets, runTool, hcfg, hb]
    exact ⟨h1, by rw [h1]; exact errorPrefixed_of _ e " listing sheets: " rfl⟩
  · intro hb
    have h1 : read_sheet_data cfg env name rn l20 =
        ("Error reading sheet data: " ++ e, l) := by
      simp [read_sheet_data, runTool, hcfg, hb]
    exact ⟨h1, by rw [h1]; exact errorPrefixed_of _ e " reading sheet data: " rfl⟩
  · intro hb
    have h1 : create_sheet cfg env name = ("Error creating sheet: " ++ e, l) := by
      simp [create_sheet, runTool, hcfg, hb]
    exact ⟨h1, by rw [h1]; exact errorPrefixed_of _ e " creating sheet: " rfl⟩
  · intro hb
    have h1 : rename_sheet cfg env old_t new_t =
        ("Error renaming sheet: " ++ e, l) := by
      simp [rename_sheet, runTool, hcfg, hb]
    exact ⟨h1, by rw [h1]; exact errorPrefixed_of _ e " renaming sheet: " rfl⟩
  · intro hb
    have h1 : append_data cfg env name rows =
        ("Error appending data: " ++ e, l) := by
      simp [append_data, runTool, hcfg, hb]
    exact ⟨h1, by rw [h1]; exact errorPrefixed_of _ e " appending data: " rfl⟩
  · intro hb
    have h1 : add_column cfg env name hdr colv =
        ("Error adding column: " ++ e, l) := by
      simp [add_column, runTool, hcfg, hb]
    exact ⟨h1, by rw [h1]; exact errorPrefixed_of _ e " adding column: " rfl⟩
  · intro hb
    have h1 : delete_sheet cfg env name = ("Error deleting sheet: " ++ e, l) := by
      simp [delete_sheet, runTool, hcfg, hb]
    exact ⟨h1, by rw [h1]; exact errorPrefixed_of _ e " deleting sheet: " rfl⟩
  · intro hb
    have h1 : delete_row cfg env name i j = ("Error deleting rows: " ++ e, l) := by
      simp [delete_row, runTool, hcfg, hb]
    exact ⟨h1, by rw [h1]; exact errorPrefixed_of _ e " deleting rows: " rfl⟩
  · intro hb
    have h1 : delete_column cfg env name i j =
        ("Error deleting columns: " ++ e, l) := by
      simp [delete_column, runTool, hcfg, hb]
    exact ⟨h1, by rw [h1]; exact errorPrefixed_of _ e " deleting columns: " rfl⟩

theorem C8_error_boundary_witness :
    list_sheets ⟨some "id"⟩ envFail = ("Error listing sheets: boom",
      [Call.getService]) :=
  ((C8_error_boundary ⟨some "id"⟩ envFail "S" "H" "a" "b" none false [] none 0 1
    "boom" [Call.getService] (by decide)).1 rfl).1

theorem C3_tail_window_witness :
    Call.valuesGet (sq ++ "S" ++ sq ++ "!1:1") ∈
      (read_sheet_data ⟨some "id"⟩ envA "S" none true).2 :=
  ((C3_tail_window ⟨some "id"⟩ envA "S" [⟨"S", 1, 0, 30, ""⟩] ⟨"S", 1, 0, 30, ""⟩
    (by decide) rfl rfl (by decide)).1 (by decide)).2 ["a"] [] rfl

theorem C4_header_body_split_witness :
    (read_sheet_data ⟨some "id"⟩ envA "S" none false).1 = tabulate ["a"] [] :=
  C4_header_body_split.2.1 ⟨some "id"⟩ envA "S" ["a"] [] (by decide) rfl rfl

/-- C9: add_column derives the target column solely from the cell count of
the separately fetched row 1: the new header is written to row 1 at column
index_to_column (length of row 1); with an absent or empty first row the
header goes to column A, whatever the rest of the sheet looks like. -/
theorem C9_add_column_target :
    (∀ (cfg : Config) (env : Env) (name hdr : String)
      (colv : Option (List String)) (row1 : List String)
      (rest : List (List String)),
      cfgUnset cfg = false → env.getService = Except.ok () →
      env.valuesGet (sq ++ name ++ sq ++ "!1:1") =
        Except.ok (some (row1 :: rest)) →
      ∃ r2, (add_column cfg env name hdr colv).2 =
        [Call.getService, Call.valuesGet (sq ++ name ++ sq ++ "!1:1"),
          Call.valuesUpdate
            (sq ++ name ++ sq ++ "!" ++ index_to_column row1.length ++ "1")
            [[hdr]]] ++ r2) ∧
    (∀ (cfg : Config) (env : Env) (name hdr : String)
      (colv : Option (List String)),
      cfgUnset cfg = false → env.getService = Except.ok () →
      env.valuesGet (sq ++ name ++ sq ++ "!1:1") = Except.ok none →
      ∃ r2, (add_column cfg env name hdr colv).2 =
        [Call.getService, Call.valuesGet (sq ++ name ++ sq ++ "!1:1"),
          Call.valuesUpdate (sq ++ name ++ sq ++ "!A1") [[hdr]]] ++ r2) := by
  have key : ∀ (cfg : Config) (env : Env) (name hdr : String)
      (colv : Option (List String)) (o : Option (List (List String)))
      (row1 : List String) (rest : List (List String)),
      cfgUnset cfg = false → env.getService = Except.ok () →
      env.valuesGet (sq ++ name ++ sq ++ "!1:1") = Except.ok o →
      o.getD [[]] = row1 :: rest →
      ∃ r2, (add_column cfg env name hdr colv).2 =
        [Call.getService, Call.valuesGet (sq ++ name ++ sq ++ "!1:1"),
          Call.valuesUpdate
            (sq ++ name ++ sq ++ "!" ++ index_to_column row1.length ++ "1")
            [[hdr]]] ++ r2 := by
    intro cfg env name hdr colv o row1 rest hcfg hsvc hv hod
    have hlog : (add_column cfg env name hdr colv).2 =
        logOf (add_column_body env name hdr colv) :=
      runTool_log cfg _ _ hcfg
    rw [hlog]
    unfold add_column_body
    rw [hsvc]
    have hhr : headerRange name = sq ++ name ++ sq ++ "!1:1" := rfl
    rw [hhr, hv]
    simp only [hod]
    cases hu1 : env.valuesUpdate
        (sq ++ name ++ sq ++ "!" ++ index_to_column row1.length ++ "1")
        [[hdr]] with
    | error e => exact ⟨[], by simp [logOf]⟩
    | ok u =>
      by_cases hempty : (colv.getD []).isEmpty = true
      · exact ⟨[], by simp [logOf, hempty]⟩
      · simp only [hempty, Bool.false_eq_true, if_false]
        cases hu2 : env.valuesUpdate
            (sq ++ name ++ sq ++ "!" ++ index_to_column row1.length ++ "2")
            ((colv.getD []).map (fun v => [v])) with
        | error e =>
          exact ⟨[Call.valuesUpdate
            (sq ++ name ++ sq ++ "!" ++ index_to_column row1.length ++ "2")
            ((colv.getD []).map (fun v => [v]))], by simp [logOf]⟩
        | ok u2 =>
          exact ⟨[Call.valuesUpdate
            (sq ++ name ++ sq ++ "!" ++ index_to_column row1.length ++ "2")
            ((colv.getD []).map (fun v => [v]))], by simp [logOf]⟩
  constructor
  · intro cfg env name hdr colv row1 rest hcfg hsvc hv
    exact key cfg env name hdr colv (some (row1 :: rest)) row1 rest hcfg hsvc hv rfl
  · intro cfg env name hdr colv hcfg hsvc hv
    have h0 : index_to_column ([] : List String).length = "A" := by decide
    have hs : ∀ x : String, x ++ "!" ++ "A" ++ "1" = x ++ "!A1" := by
      intro x
      have e1 : ("A" : String) ++ "1" = "A1" := rfl
      have e2 : ("!" : String) ++ "A1" = "!A1" := rfl
      rw [String.append_assoc, e1, String.append_assoc, e2]
    have := key cfg env name hdr colv none [] [] hcfg hsvc hv rfl
    rw [h0, hs (sq ++ name ++ sq)] at this
    exact this

theorem C9_add_column_target_witness :
    ∃ r2, (add_column ⟨some "id"⟩ envA "S" "H" none).2 =
      [Call.getService, Call.valuesGet (sq ++ "S" ++ sq ++ "!1:1"),
        Call.valuesUpdate (sq ++ "S" ++ sq ++ "!" ++ index_to_column 1 ++ "1")
          [["H"]]] ++ r2 :=
  C9_add_column_target.1 ⟨some "id"⟩ envA "S" "H" none ["a"] [] (by decide) rfl rfl

/-- C10: for rename_sheet, delete_sheet, delete_row and delete_column, when
no sheet with the given title is in the metadata the tool returns the
not-found error string after only the service bootstrap and the metadata
read: no batchUpdate (mutating call) is issued. -/
theorem C10_not_found_no_mutation :
    ∀ (cfg : Config) (env : Env) (name new_t : String) (i j : Int)
      (sheets : List SheetProps),
    cfgUnset cfg = false →
    env.getService = Except.ok () →
    env.getMetadata = Except.ok sheets →
    sheets.find? (fun s => s.title == name) = none →
    (rename_sheet cfg env name new_t =
      ("Error: Sheet " ++ sq ++ name ++ sq ++ " not found.",
        [Call.getService, Call.getMetadata]) ∧
      ∀ b : BatchReq, Call.batchUpdate b ∉ (rename_sheet cfg env name new_t).2) ∧
    (delete_sheet cfg env name =
      ("Error: Sheet " ++ sq ++ name ++ sq ++ " not found.",
        [Call.getService, Call.getMetadata]) ∧
      ∀ b : BatchReq, Call.batchUpdate b ∉ (delete_sheet cfg env name).2) ∧
    (delete_row cfg env name i j =
      ("Error: Sheet " ++ sq ++ name ++ sq ++ " not found.",
        [Call.getService, Call.getMetadata]) ∧
      ∀ b : BatchReq, Call.batchUpdate b ∉ (delete_row cfg env name i j).2) ∧
    (delete_column cfg env name i j =
      ("Error: Sheet " ++ sq ++ name ++ sq ++ " not found.",
        [Call.getService, Call.getMetadata]) ∧
      ∀ b : BatchReq, Call.batchUpdate b ∉ (delete_column cfg env name i j).2) := by
  intro cfg env name new_t i j sheets hcfg hsvc hmeta hfind
  have hgid : get_sheet_id env name = (none, [Call.getMetadata]) := by
    simp [get_sheet_id, hmeta, hfind]
  have h1 : rename_sheet cfg env name new_t =
      ("Error: Sheet " ++ sq ++ name ++ sq ++ " not found.",
        [Call.getService, Call.getMetadata]) := by
    simp [rename_sheet, runTool, hcfg, rename_sheet_body, hsvc, hmeta, hfind,
      logOf]
  have h2 : delete_sheet cfg env name =
      ("Error: Sheet " ++ sq ++ name ++ sq ++ " not found.",
        [Call.getService, Call.getMetadata]) := by
    simp [delete_sheet, runTool, hcfg, delete_sheet_body, hsvc, hgid, logOf]
  have h3 : delete_row cfg env name i j =
      ("Error: Sheet " ++ sq ++ name ++ sq ++ " not found.",
        [Call.getService, Call.getMetadata]) := by
    simp [delete_row, runTool, hcfg, delete_row_body, hsvc, hgid, logOf]
  have h4 : delete_column cfg env name i j =
      ("Error: Sheet " ++ sq ++ name ++ sq ++ " not found.",
        [Call.getService, Call.getMetadata]) := by
    simp [delete_column, runTool, hcfg, delete_column_body, hsvc, hgid, logOf]
  refine ⟨⟨h1, ?_⟩, ⟨h2, ?_⟩, ⟨h3, ?_⟩, ⟨h4, ?_⟩⟩ <;>
    intro b <;>
    simp [h1, h2, h3, h4]

theorem C10_not_found_no_mutation_witness :
    delete_sheet ⟨some "id"⟩ envA "T" =
      ("Error: Sheet " ++ sq ++ "T" ++ sq ++ " not found.",
        [Call.getService, Call.getMetadata]) :=
  ((C10_not_found_no_mutation ⟨some "id"⟩ envA "T" "U" 0 1 [⟨"S", 1, 0, 30, ""⟩]
    (by decide) rfl rfl (by decide)).2.1).1

end GSheet
